import Mathlib

/-!
Verification of the tariff engine of the homey-energy-tariff app.

The definitions below are a shallow embedding of the JavaScript source
(src/app.js, src/api.js, src/drivers/tariff-meter/device.js) into Lean:
numbers become rationals (JS floats are modelled exactly by the rational
arithmetic the program performs), JS strings become Lean strings compared
character-by-character exactly as the JS relational operators do, absent
(undefined / null) values become Option, and methods mutating instance
fields become functions from the state record to a new state record.
-/

namespace EnergyTariff

/-! ## Clock strings

The device builds its current-time string with
String(h).padStart(2,'0') + ":" + String(m).padStart(2,'0')
and compares such strings with the JS relational operators, which order
strings lexicographically by code unit.  We embed the exact string
construction (for the 0..99 range hours and minutes live in) and the
exact lexicographic comparison. -/

/-- The decimal digit character of n (model of the digits emitted by the
JS number-to-string conversion). -/
def digitChar (n : Nat) : Char := Char.ofNat (48 + n)

/-- Model of the JS conversion String(n) for 0 <= n < 100: one digit below
ten, two digits otherwise (hours and minutes never exceed 99 here). -/
def natStr (n : Nat) : String :=
  if n < 10 then String.mk [digitChar n]
  else String.mk [digitChar (n / 10), digitChar (n % 10)]

/-- Model of s.padStart(2, '0'). -/
def padStart2 (s : String) : String :=
  if s.length < 2 then "0" ++ s else s

/-- The zero-padded "HH:MM" string the device builds from a clock reading. -/
def timeStr (h m : Nat) : String :=
  padStart2 (natStr h) ++ ":" ++ padStart2 (natStr m)

/-- Lexicographic code-unit comparison of character lists: the model of
the JS abstract relational comparison on strings. -/
def jsLtChars : List Char → List Char → Bool
  | [], [] => false
  | [], _ :: _ => true
  | _ :: _, [] => false
  | a :: as, b :: bs =>
    if a < b then true
    else if b < a then false
    else jsLtChars as bs

/-- Model of the JS string comparison a < b. -/
def jsStrLt (a b : String) : Bool := jsLtChars a.data b.data

/-- Model of s.split(':') at the character-list level. -/
def splitColon : List Char → List (List Char)
  | [] => [[]]
  | c :: cs =>
    if c = ':' then [] :: splitColon cs
    else
      match splitColon cs with
      | [] => [[c]]
      | g :: gs => (c :: g) :: gs

/-- Model of the JS Number(...) conversion on a digit string. -/
def jsNumber (cs : List Char) : Nat :=
  cs.foldl (fun a c => a * 10 + (c.toNat - 48)) 0

/-- Model of the destructuring pattern
[h, m] = s.split(':').map(Number) used on "HH:MM" settings strings. -/
def parseHHMM (s : String) : Nat × Nat :=
  match (splitColon s.data).map jsNumber with
  | h :: m :: _ => (h, m)
  | [h] => (h, 0)
  | [] => (0, 0)

/-! ## Data model -/

/-- A season record from the seasons setting
(see initializeSettings in src/app.js for the default pair).  dayStart and
dayEnd are optional: the code replaces a missing (falsy) value by the
defaults "06:00" and "22:00" at every use site. -/
structure Season where
  name : String
  startMonth : Nat
  startDay : Nat
  endMonth : Nat
  endDay : Nat
  dayStart : Option String
  dayEnd : Option String
deriving DecidableEq, Repr

/-- The default Winter season installed by initializeSettings. -/
def winterSeason : Season :=
  { name := "Winter", startMonth := 11, startDay := 1, endMonth := 3, endDay := 31
    dayStart := some "06:00", dayEnd := some "22:00" }

/-- The default Summer season installed by initializeSettings. -/
def summerSeason : Season :=
  { name := "Summer", startMonth := 4, startDay := 1, endMonth := 10, endDay := 31
    dayStart := some "07:00", dayEnd := some "23:00" }

/-- isDateInSeason from device.js (identical copy in app.js): membership of
a calendar (month, day) in a season, with the wrapping (startMonth >
endMonth) case using a disjunction of the two lexicographic comparisons. -/
def isDateInSeason (month day : Nat) (s : Season) : Bool :=
  if s.startMonth > s.endMonth then
    (decide (month > s.startMonth) || (decide (month = s.startMonth) && decide (day ≥ s.startDay))) ||
    (decide (month < s.endMonth) || (decide (month = s.endMonth) && decide (day ≤ s.endDay)))
  else
    (decide (month > s.startMonth) || (decide (month = s.startMonth) && decide (day ≥ s.startDay))) &&
    (decide (month < s.endMonth) || (decide (month = s.endMonth) && decide (day ≤ s.endDay)))

/-- getCurrentTariff from device.js: builds the zero-padded clock string
and compares it against the season window with JS string comparison;
returns "day" on [dayStart, dayEnd), otherwise "night"; with no season
configured returns "day". -/
def getCurrentTariff (season : Option Season) (h m : Nat) : String :=
  match season with
  | none => "day"
  | some s =>
    let currentTime := timeStr h m
    if !jsStrLt currentTime (s.dayStart.getD "06:00") &&
        jsStrLt currentTime (s.dayEnd.getD "22:00") then "day"
    else "night"

/-- Model of the JS expression (x || d) on a numeric setting: any falsy
stored value (absent, or the number 0) yields the default. -/
def jsOrNum (v : Option ℚ) (d : ℚ) : ℚ :=
  match v with
  | some x => if x = 0 then d else x
  | none => d

/-- Model of the JS expression (x || d) on a string setting: any falsy
stored value (absent, or the empty string) yields the default. -/
def jsOrStr (v : Option String) (d : String) : String :=
  match v with
  | some s => if s = "" then d else s
  | none => d

/-- getCurrentRate from device.js: the day rate (default 0.12) for the
"day" tariff, the night rate (default 0.06) otherwise; the stored rate is
read through the falsy-or, so a stored 0 also falls back. -/
def getCurrentRate (tariff : String) (dayRate nightRate : Option ℚ) : ℚ :=
  if tariff = "day" then jsOrNum dayRate 0.12
  else jsOrNum nightRate 0.06

/-- getMinutesUntilChange from device.js: current minute-of-day against
the parsed dayStart/dayEnd minutes; during day the remainder to dayEnd,
during night either the wrap past midnight (when now is at or past
dayEnd) or the remainder to dayStart. -/
def getMinutesUntilChange (season : Option Season) (currentTariff : String)
    (h m : Nat) : Int :=
  match season with
  | none => 0
  | some s =>
    let cur : Int := h * 60 + m
    let ds := parseHHMM (s.dayStart.getD "06:00")
    let de := parseHHMM (s.dayEnd.getD "22:00")
    let dayStartTotal : Int := ds.1 * 60 + ds.2
    let dayEndTotal : Int := de.1 * 60 + de.2
    if currentTariff = "day" then dayEndTotal - cur
    else if cur ≥ dayEndTotal then (24 * 60 - cur) + dayStartTotal
    else dayStartTotal - cur

/-- A season misconfigured with dayEnd earlier than dayStart; the spec's
data model and the code both admit it (no validation is performed). -/
def badSeason : Season :=
  { name := "Bad", startMonth := 1, startDay := 1, endMonth := 12, endDay := 31
    dayStart := some "22:00", dayEnd := some "06:00" }

/-- One device power reading from the power-device snapshot. -/
structure PowerDevice where
  name : String
  power : ℚ
deriving DecidableEq, Repr

/-- The mutable instance fields of the tariff-meter device that the
tracking methods read and write (initialized in onInit). -/
structure DeviceState where
  lastTariff : Option String
  tariffChangesToday : Nat
  lastResetDate : String
  costToday : ℚ
  lastCostUpdate : ℚ
deriving DecidableEq, Repr

/-- Payload of the tariff-changed trigger event. -/
structure TariffEvent where
  previous_tariff : String
  new_tariff : String
  rate : ℚ
deriving DecidableEq, Repr

/-- Payload of the cost-threshold-exceeded trigger event. -/
structure CostAlert where
  cost_per_hour : ℚ
  total_power : ℚ
  threshold : ℚ
deriving DecidableEq, Repr

/-- Payload of the daily-cost-exceeded trigger event. -/
structure DailyAlert where
  cost_today : ℚ
  threshold : ℚ
deriving DecidableEq, Repr

/-- Payload of one high-power-device trigger event. -/
structure HighPowerAlert where
  device_name : String
  power : ℚ
  cost_per_hour : ℚ
deriving DecidableEq, Repr

/-- Everything checkAlerts emits on one tick. -/
structure AlertOutput where
  costAlert : Option CostAlert
  dailyAlert : Option DailyAlert
  highPower : List HighPowerAlert
deriving DecidableEq, Repr

/-- The accumulation loop of updateCostTracking: powers at or below zero
are skipped, not clamped. -/
def totalPowerOf (powerDevices : List PowerDevice) : ℚ :=
  powerDevices.foldl (fun acc d => if d.power > 0 then acc + d.power else acc) 0

/-- updateCostTracking from device.js, acting on the device state.  now is
the tick timestamp in milliseconds, todayString the local calendar-day key
of the tick (the toDateString value), (h, m) the local clock of the tick.
The rate is resolved at the tick time; the increment is computed from the
elapsed interval; the daily reset zeroes costToday and advances
lastResetDate before the increment is added.  Returns the new state and
the instantaneous costPerHour written to the capability. -/
def updateCostTracking (st : DeviceState) (now : ℚ) (todayString : String)
    (h m : Nat) (season : Option Season) (dayRate nightRate : Option ℚ)
    (powerDevices : List PowerDevice) : DeviceState × ℚ :=
  let timeDelta := (now - st.lastCostUpdate) / 1000 / 3600
  let currentRate := getCurrentRate (getCurrentTariff season h m) dayRate nightRate
  let totalPower := totalPowerOf powerDevices
  let costIncrement := totalPower / 1000 * timeDelta * currentRate
  let st :=
    if st.lastResetDate ≠ todayString then
      { st with costToday := 0, lastResetDate := todayString }
    else st
  ({ st with costToday := st.costToday + costIncrement, lastCostUpdate := now },
   totalPower / 1000 * currentRate)

/-- trackTariffChanges from device.js: reset the per-day change counter
when the calendar day advanced, then on an observed tariff edge (previous
tariff non-null and different) increment the counter and emit the
tariff-changed event; always record the tariff just observed. -/
def trackTariffChanges (st : DeviceState) (currentTariff todayString : String)
    (dayRate nightRate : Option ℚ) : DeviceState × Option TariffEvent :=
  let st :=
    if st.lastResetDate ≠ todayString then
      { st with tariffChangesToday := 0, lastResetDate := todayString }
    else st
  match st.lastTariff with
  | some prev =>
    if prev ≠ currentTariff then
      ({ st with lastTariff := some currentTariff
                 tariffChangesToday := st.tariffChangesToday + 1 },
       some { previous_tariff := prev, new_tariff := currentTariff
              rate := getCurrentRate currentTariff dayRate nightRate })
    else ({ st with lastTariff := some currentTariff }, none)
  | none => ({ st with lastTariff := some currentTariff }, none)

/-- One interval tick of the device in program order (the handler
installed in onInit): updateTariffValues is awaited first, and its only
state mutation is trackTariffChanges on the freshly resolved tariff;
updateCostTracking is awaited second.  Both run against the same clock
reading and the same shared lastResetDate field of the device instance.
Returns the final state, the tariff-changed event of the tick, and the
tick's costPerHour. -/
def intervalTick (st : DeviceState) (now : ℚ) (todayString : String)
    (h m : Nat) (season : Option Season) (dayRate nightRate : Option ℚ)
    (powerDevices : List PowerDevice) :
    DeviceState × Option TariffEvent × ℚ :=
  let tariff := getCurrentTariff season h m
  let tracked := trackTariffChanges st tariff todayString dayRate nightRate
  let updated := updateCostTracking tracked.1 now todayString h m season
    dayRate nightRate powerDevices
  (updated.1, tracked.2, updated.2)

/-- checkAlerts from device.js: the cost-per-hour event fires whenever
costPerHour is positive, with the threshold field set to the observed
costPerHour itself and total power summed over the device snapshot; the
daily event fires whenever costToday is positive; a high-power event is
emitted per device in the snapshot. -/
def checkAlerts (costPerHour costToday currentRate : ℚ)
    (devicePowers : List PowerDevice) : AlertOutput :=
  { costAlert :=
      if costPerHour > 0 then
        some { cost_per_hour := costPerHour
               total_power := devicePowers.foldl (fun sum d => sum + d.power) 0
               threshold := costPerHour }
      else none
    dailyAlert :=
      if costToday > 0 then
        some { cost_today := costToday, threshold := costToday }
      else none
    highPower := devicePowers.map fun d =>
      { device_name := d.name, power := d.power
        cost_per_hour := d.power / 1000 * currentRate } }

/-- One sample of the widget history buffer. -/
structure HistorySample where
  t : ℚ
  power : ℚ
  costH : ℚ
  costDay : ℚ
deriving DecidableEq, Repr

/-- recordHistory from app.js: push the sample to the back, then keep only
the last 1440 entries (the slice with negative start drops from the
front). -/
def recordHistory (history : List HistorySample) (sample : HistorySample) :
    List HistorySample :=
  let h := history ++ [sample]
  if 1440 < h.length then h.drop (h.length - 1440) else h

/-- A whole append sequence against the buffer, starting from the empty
history installed by onInit. -/
def recordAll (samples : List HistorySample) : List HistorySample :=
  samples.foldl recordHistory []

/-- The settings store (absent keys are none). -/
structure SettingsStore where
  currency : Option String
  dayRate : Option ℚ
  nightRate : Option ℚ
  seasons : Option (List Season)
deriving DecidableEq, Repr

/-- A PUT /settings request body; none means the field is absent from the
request. -/
structure SettingsBody where
  currency : Option String
  dayRate : Option ℚ
  nightRate : Option ℚ
  seasons : Option (List Season)
deriving DecidableEq, Repr

/-- The JSON shape returned by GET /settings. -/
structure SettingsView where
  currency : String
  dayRate : ℚ
  nightRate : ℚ
  seasons : List Season
deriving DecidableEq, Repr

/-- getSettings from api.js: every numeric or string field is read through
the JS falsy-or against the fixed defaults; seasons defaults to the empty
list only when absent (a stored array is always truthy). -/
def getSettings (store : SettingsStore) : SettingsView :=
  { currency := jsOrStr store.currency "EUR"
    dayRate := jsOrNum store.dayRate 0.12
    nightRate := jsOrNum store.nightRate 0.06
    seasons := store.seasons.getD [] }

/-- putSettings from api.js: each of the four fields is written only when
present in the body; the response is always success. -/
def putSettings (store : SettingsStore) (body : SettingsBody) :
    SettingsStore × Bool :=
  let s1 := match body.currency with
    | some c => { store with currency := some c }
    | none => store
  let s2 := match body.dayRate with
    | some r => { s1 with dayRate := some r }
    | none => s1
  let s3 := match body.nightRate with
    | some r => { s2 with nightRate := some r }
    | none => s2
  let s4 := match body.seasons with
    | some l => { s3 with seasons := some l }
    | none => s3
  (s4, true)

/-- A season that leaves dayStart and dayEnd unset, exercising the
"06:00" and "22:00" defaults. -/
def bareSeason : Season :=
  { name := "Bare", startMonth := 1, startDay := 1, endMonth := 12, endDay := 31
    dayStart := none, dayEnd := none }

/-- A history sample distinguished by its timestamp, for concrete append
sequences. -/
def mkSample (i : Nat) : HistorySample := ⟨(i : ℚ), 0, 0, 0⟩

/-- 1441 pairwise distinct samples, one more than the buffer capacity. -/
def histSamples1441 : List HistorySample := (List.range 1441).map mkSample


/-! ## Bridge lemmas: clock strings versus minute arithmetic -/

/-- Digit characters compare exactly like the digits they encode. -/
theorem digitChar_lt_iff : ∀ a < 10, ∀ b < 10,
    ((digitChar a < digitChar b) ↔ a < b) := by decide

/-- Digit characters are never the colon separator. -/
theorem digitChar_ne_colon : ∀ a < 10, digitChar a ≠ ':' := by decide

/-- Code point of a digit character. -/
theorem digitChar_toNat : ∀ a < 10, (digitChar a).toNat = 48 + a := by decide

theorem data_append (a b : String) : (a ++ b).data = a.data ++ b.data := rfl

/-- The character list of a zero-padded clock string, in terms of the two
digits of each component. -/
theorem timeStr_data (h m : Nat) (hh : h < 100) (hm : m < 100) :
    (timeStr h m).data = [digitChar (h / 10), digitChar (h % 10), ':',
      digitChar (m / 10), digitChar (m % 10)] := by
  have pad : ∀ n < 100, (padStart2 (natStr n)).data =
      [digitChar (n / 10), digitChar (n % 10)] := by
    intro n hn
    by_cases h10 : n < 10
    · have h1 : n / 10 = 0 := Nat.div_eq_of_lt h10
      have h2 : n % 10 = n := Nat.mod_eq_of_lt h10
      have hz : digitChar 0 = '0' := by decide
      simp [padStart2, natStr, h10, String.length, h1, h2, hz, data_append]
    · have hlen : ¬ (natStr n).length < 2 := by
        simp [natStr, h10, String.length]
      simp [padStart2, hlen, natStr, h10]
  have := pad h hh
  have := pad m hm
  simp [timeStr, data_append, *]

/-- JS string comparison of two zero-padded clock strings is exactly the
comparison of their minutes-since-midnight values. -/
theorem jsStrLt_timeStr (h m h₂ m₂ : Nat) (hh : h < 100) (hm : m < 60)
    (hh₂ : h₂ < 100) (hm₂ : m₂ < 60) :
    jsStrLt (timeStr h m) (timeStr h₂ m₂) =
      decide (60 * h + m < 60 * h₂ + m₂) := by
  unfold jsStrLt
  rw [timeStr_data h m hh (by omega), timeStr_data h₂ m₂ hh₂ (by omega)]
  have k1 := digitChar_lt_iff (h / 10) (by omega) (h₂ / 10) (by omega)
  have k2 := digitChar_lt_iff (h₂ / 10) (by omega) (h / 10) (by omega)
  have k3 := digitChar_lt_iff (h % 10) (by omega) (h₂ % 10) (by omega)
  have k4 := digitChar_lt_iff (h₂ % 10) (by omega) (h % 10) (by omega)
  have k5 := digitChar_lt_iff (m / 10) (by omega) (m₂ / 10) (by omega)
  have k6 := digitChar_lt_iff (m₂ / 10) (by omega) (m / 10) (by omega)
  have k7 := digitChar_lt_iff (m % 10) (by omega) (m₂ % 10) (by omega)
  have k8 := digitChar_lt_iff (m₂ % 10) (by omega) (m % 10) (by omega)
  have hcolon : ¬ (':' < ':') := by decide
  simp only [jsLtChars, hcolon, if_false]
  split_ifs with c1 c2 c3 c4 c5 c6 c7 c8 <;>
    simp_all <;> omega

/-- Parsing a zero-padded clock string recovers its components. -/
theorem parseHHMM_timeStr (h m : Nat) (hh : h < 100) (hm : m < 100) :
    parseHHMM (timeStr h m) = (h, m) := by
  unfold parseHHMM
  rw [timeStr_data h m hh hm]
  have n1 := digitChar_ne_colon (h / 10) (by omega)
  have n2 := digitChar_ne_colon (h % 10) (by omega)
  have n3 := digitChar_ne_colon (m / 10) (by omega)
  have n4 := digitChar_ne_colon (m % 10) (by omega)
  have t1 := digitChar_toNat (h / 10) (by omega)
  have t2 := digitChar_toNat (h % 10) (by omega)
  have t3 := digitChar_toNat (m / 10) (by omega)
  have t4 := digitChar_toNat (m % 10) (by omega)
  simp [splitColon, n1, n2, n3, n4, jsNumber, t1, t2, t3, t4]
  omega

/-- The resolved tariff, characterized by the half-open minute window of
the season: day exactly on [dayStart, dayEnd). -/
theorem getCurrentTariff_eq_ite (s : Season) (h₁ m₁ h₂ m₂ h m : Nat)
    (b₁ : h₁ < 24) (b₂ : m₁ < 60) (b₃ : h₂ < 24) (b₄ : m₂ < 60)
    (bh : h < 24) (bm : m < 60)
    (hds : s.dayStart.getD "06:00" = timeStr h₁ m₁)
    (hde : s.dayEnd.getD "22:00" = timeStr h₂ m₂) :
    getCurrentTariff (some s) h m =
      if 60 * h₁ + m₁ ≤ 60 * h + m ∧ 60 * h + m < 60 * h₂ + m₂
      then "day" else "night" := by
  have hdef : getCurrentTariff (some s) h m =
      (if (!jsStrLt (timeStr h m) (s.dayStart.getD "06:00") &&
            jsStrLt (timeStr h m) (s.dayEnd.getD "22:00")) = true
        then "day" else "night") := rfl
  rw [hdef, hds, hde,
    jsStrLt_timeStr h m h₁ m₁ (by omega) bm (by omega) b₂,
    jsStrLt_timeStr h m h₂ m₂ (by omega) bm (by omega) b₄]
  simp only [Bool.and_eq_true, Bool.not_eq_true', decide_eq_false_iff_not,
    decide_eq_true_eq, Nat.not_lt]

/-- Evaluation of getMinutesUntilChange during the day tariff. -/
theorem minutesUntilChange_day (s : Season) (h₁ m₁ h₂ m₂ h m : Nat)
    (b₁ : h₁ < 100) (b₂ : m₁ < 100) (b₃ : h₂ < 100) (b₄ : m₂ < 100)
    (hds : s.dayStart.getD "06:00" = timeStr h₁ m₁)
    (hde : s.dayEnd.getD "22:00" = timeStr h₂ m₂) :
    getMinutesUntilChange (some s) "day" h m =
      ((h₂ : Int) * 60 + m₂) - ((h : Int) * 60 + m) := by
  simp only [getMinutesUntilChange]
  rw [hds, hde, parseHHMM_timeStr h₁ m₁ b₁ b₂, parseHHMM_timeStr h₂ m₂ b₃ b₄]
  simp

/-- Evaluation of getMinutesUntilChange during the night tariff. -/
theorem minutesUntilChange_night (s : Season) (h₁ m₁ h₂ m₂ h m : Nat)
    (b₁ : h₁ < 100) (b₂ : m₁ < 100) (b₃ : h₂ < 100) (b₄ : m₂ < 100)
    (hds : s.dayStart.getD "06:00" = timeStr h₁ m₁)
    (hde : s.dayEnd.getD "22:00" = timeStr h₂ m₂) :
    getMinutesUntilChange (some s) "night" h m =
      if ((h : Int) * 60 + m) ≥ ((h₂ : Int) * 60 + m₂)
      then 24 * 60 - ((h : Int) * 60 + m) + ((h₁ : Int) * 60 + m₁)
      else ((h₁ : Int) * 60 + m₁) - ((h : Int) * 60 + m) := by
  simp only [getMinutesUntilChange]
  rw [hds, hde, parseHHMM_timeStr h₁ m₁ b₁ b₂, parseHHMM_timeStr h₂ m₂ b₃ b₄]
  simp

/-- The skip-nonpositive fold equals the sum of the positive readings. -/
theorem totalPowerOf_eq_sum (l : List PowerDevice) :
    totalPowerOf l =
      ((l.filter fun d => 0 < d.power).map PowerDevice.power).sum := by
  have gen : ∀ (l : List PowerDevice) (acc : ℚ),
      l.foldl (fun acc d => if d.power > 0 then acc + d.power else acc) acc =
        acc + ((l.filter fun d => 0 < d.power).map PowerDevice.power).sum := by
    intro l
    induction l with
    | nil => simp
    | cons d t ih =>
      intro acc
      by_cases hp : 0 < d.power <;> simp [hp, ih, add_assoc]
  simpa [totalPowerOf] using gen l 0

/-- The plain power fold of checkAlerts equals the sum of the powers. -/
theorem foldPower_eq_sum (l : List PowerDevice) :
    l.foldl (fun sum d => sum + d.power) 0 = (l.map PowerDevice.power).sum := by
  have gen : ∀ (l : List PowerDevice) (acc : ℚ),
      l.foldl (fun sum d => sum + d.power) acc =
        acc + (l.map PowerDevice.power).sum := by
    intro l
    induction l with
    | nil => simp
    | cons d t ih => intro acc; simp [ih, add_assoc]
  simpa using gen l 0

/-- Closed form of a whole append sequence against the history buffer:
only the last 1440 pushed samples survive, in push order. -/
theorem foldl_recordHistory (l acc : List HistorySample)
    (hacc : acc.length ≤ 1440) :
    l.foldl recordHistory acc =
      (acc ++ l).drop (acc.length + l.length - 1440) := by
  induction l generalizing acc with
  | nil =>
    have hz : acc.length - 1440 = 0 := by omega
    simp [hz]
  | cons sample t ih =>
    rw [List.foldl_cons]
    by_cases hfull : acc.length + 1 ≤ 1440
    · have h1 : ¬ 1440 < (acc ++ [sample]).length := by
        rw [List.length_append, List.length_singleton]; omega
      have hrec : recordHistory acc sample = acc ++ [sample] := by
        simp only [recordHistory]
        rw [if_neg h1]
      rw [hrec, ih (acc ++ [sample])
            (by rw [List.length_append, List.length_singleton]; omega)]
      have hidx : (acc ++ [sample]).length + t.length - 1440 =
          acc.length + (sample :: t).length - 1440 := by
        rw [List.length_append, List.length_singleton, List.length_cons]; omega
      rw [hidx, List.append_assoc, List.singleton_append]
    · have hacc1440 : acc.length = 1440 := by omega
      have h1 : 1440 < (acc ++ [sample]).length := by
        rw [List.length_append, List.length_singleton]; omega
      have h2 : (acc ++ [sample]).length - 1440 = 1 := by
        rw [List.length_append, List.length_singleton]; omega
      have hrec : recordHistory acc sample = (acc ++ [sample]).drop 1 := by
        simp only [recordHistory]
        rw [if_pos h1, h2]
      have hlen : ((acc ++ [sample]).drop 1).length ≤ 1440 := by
        rw [List.length_drop, List.length_append, List.length_singleton]; omega
      rw [hrec, ih _ hlen,
        ← List.drop_append_of_le_length
            (show 1 ≤ (acc ++ [sample]).length by
              rw [List.length_append, List.length_singleton]; omega),
        List.drop_drop]
      have hidx : 1 + (((acc ++ [sample]).drop 1).length + t.length - 1440) =
          acc.length + (sample :: t).length - 1440 := by
        rw [List.length_drop, List.length_append, List.length_singleton,
          List.length_cons]
        omega
      rw [hidx, List.append_assoc, List.singleton_append]

/-! ## Claim theorems -/

/-- C1 states the spec's intent (and the intent of the reset comment and
log inside updateCostTracking), but the program violates it: the interval
handler awaits updateTariffValues before updateCostTracking, and the
trackTariffChanges call inside the former advances the shared
lastResetDate to the new day first.  The subsequent updateCostTracking
therefore finds no day change on the first tick of a new calendar day,
never zeroes costToday, and the pre-midnight accrual is retained: after
that tick costToday is the previous day's total plus the increment, not
the increment alone. -/
theorem claim_C1_no_midnight_reset (st : DeviceState) (now : ℚ)
    (today : String) (h m : Nat) (season : Option Season)
    (dayRate nightRate : Option ℚ) (powers : List PowerDevice)
    (hday : st.lastResetDate ≠ today) :
    (intervalTick st now today h m season dayRate nightRate powers).1.costToday =
      st.costToday +
        totalPowerOf powers / 1000 * ((now - st.lastCostUpdate) / 1000 / 3600) *
          getCurrentRate (getCurrentTariff season h m) dayRate nightRate ∧
    (intervalTick st now today h m season dayRate nightRate powers).1.lastResetDate =
      today := by
  have htr :
      (trackTariffChanges st (getCurrentTariff season h m) today
        dayRate nightRate).1.costToday = st.costToday ∧
      (trackTariffChanges st (getCurrentTariff season h m) today
        dayRate nightRate).1.lastCostUpdate = st.lastCostUpdate ∧
      (trackTariffChanges st (getCurrentTariff season h m) today
        dayRate nightRate).1.lastResetDate = today := by
    rcases hl : st.lastTariff with _ | p
    · simp [trackTariffChanges, hday, hl]
    · by_cases hpc : p = getCurrentTariff season h m <;>
        simp [trackTariffChanges, hday, hl, hpc]
  obtain ⟨hc, hu, hr⟩ := htr
  simp [intervalTick, updateCostTracking, hc, hu, hr]

/-- Witness for C1: a concrete first tick after midnight at 00:30 with
2000 W for the elapsed hour; yesterday's accrual of 5 is retained and the
increment 0.24 lands on top of it instead of on a fresh 0. -/
theorem claim_C1_bug_witness :
    (intervalTick ⟨some "night", 3, "Wed Jan 14 2026", 5, 0⟩ 3600000
        "Thu Jan 15 2026" 0 30 none (some 0.12) (some 0.06)
        [⟨"heater", 2000⟩]).1.costToday = 5 + 0.24 ∧
    (intervalTick ⟨some "night", 3, "Wed Jan 14 2026", 5, 0⟩ 3600000
        "Thu Jan 15 2026" 0 30 none (some 0.12) (some 0.06)
        [⟨"heater", 2000⟩]).1.lastResetDate = "Thu Jan 15 2026" := by
  have h := claim_C1_no_midnight_reset ⟨some "night", 3, "Wed Jan 14 2026", 5, 0⟩
    3600000 "Thu Jan 15 2026" 0 30 none (some 0.12) (some 0.06)
    [⟨"heater", 2000⟩] (by decide)
  refine ⟨?_, h.2⟩
  rw [h.1]
  norm_num [totalPowerOf, getCurrentRate, getCurrentTariff, jsOrNum]

/-- C2: for a wrapping season the membership predicate is the disjunction
of the two lexicographic comparisons, and on the default Nov 1 to
Mar 31 season Dec 25 and Mar 31 are members while Jul 4 and Apr 1 are
not. -/
theorem claim_C2_wrapping_season (s : Season)
    (hw : s.startMonth > s.endMonth) :
    (∀ month day : Nat,
      isDateInSeason month day s = true ↔
        ((s.startMonth < month ∨ (month = s.startMonth ∧ s.startDay ≤ day)) ∨
         (month < s.endMonth ∨ (month = s.endMonth ∧ day ≤ s.endDay)))) ∧
    isDateInSeason 12 25 winterSeason = true ∧
    isDateInSeason 3 31 winterSeason = true ∧
    isDateInSeason 7 4 winterSeason = false ∧
    isDateInSeason 4 1 winterSeason = false := by
  refine ⟨fun month day => ?_, by decide, by decide, by decide, by decide⟩
  simp [isDateInSeason, hw]

/-- Witness for C2: the wrapping hypothesis holds of the default Winter
season. -/
theorem claim_C2_witness :
    (∀ month day : Nat,
      isDateInSeason month day winterSeason = true ↔
        ((winterSeason.startMonth < month ∨
          (month = winterSeason.startMonth ∧ winterSeason.startDay ≤ day)) ∨
         (month < winterSeason.endMonth ∨
          (month = winterSeason.endMonth ∧ day ≤ winterSeason.endDay)))) ∧
    isDateInSeason 12 25 winterSeason = true ∧
    isDateInSeason 3 31 winterSeason = true ∧
    isDateInSeason 7 4 winterSeason = false ∧
    isDateInSeason 4 1 winterSeason = false :=
  claim_C2_wrapping_season winterSeason (by decide)

/-- C5: a same-day tick adds exactly power-sum over 1000, times elapsed
hours, times the rate resolved at the tick; the power sum counts only
strictly positive readings; 2000 W for one hour at rate 0.12 adds
exactly 0.24. -/
theorem claim_C5_cost_increment (st : DeviceState) (now : ℚ)
    (today : String) (h m : Nat) (season : Option Season)
    (dayRate nightRate : Option ℚ) (powers : List PowerDevice)
    (hsame : st.lastResetDate = today) :
    (updateCostTracking st now today h m season dayRate nightRate powers).1.costToday =
      st.costToday +
        totalPowerOf powers / 1000 * ((now - st.lastCostUpdate) / 1000 / 3600) *
          getCurrentRate (getCurrentTariff season h m) dayRate nightRate ∧
    totalPowerOf powers =
      ((powers.filter fun d => 0 < d.power).map PowerDevice.power).sum ∧
    (updateCostTracking ⟨none, 0, "Thu Jan 15 2026", 0, 0⟩ 3600000
        "Thu Jan 15 2026" 12 0 none (some 0.12) (some 0.06)
        [⟨"heater", 2000⟩]).1.costToday = 0.24 ∧
    totalPowerOf [⟨"heater", 2000⟩, ⟨"sensor", -5⟩] = 2000 := by
  refine ⟨?_, totalPowerOf_eq_sum powers, ?_, by norm_num [totalPowerOf]⟩
  · simp [updateCostTracking, hsame]
  · norm_num [updateCostTracking, getCurrentRate, getCurrentTariff,
      jsOrNum, totalPowerOf]

/-- Witness for C5: the same-day hypothesis at a concrete state. -/
theorem claim_C5_witness :
    (updateCostTracking ⟨none, 0, "Thu Jan 15 2026", 1, 0⟩ 3600000
        "Thu Jan 15 2026" 12 0 none (some 0.12) (some 0.06)
        [⟨"heater", 2000⟩]).1.costToday =
      1 + totalPowerOf [⟨"heater", 2000⟩] / 1000 * ((3600000 - 0) / 1000 / 3600) *
        getCurrentRate (getCurrentTariff none 12 0) (some 0.12) (some 0.06) ∧
    totalPowerOf [⟨"heater", 2000⟩] =
      ((([⟨"heater", 2000⟩] : List PowerDevice).filter
        (fun d => 0 < d.power)).map PowerDevice.power).sum ∧
    (updateCostTracking ⟨none, 0, "Thu Jan 15 2026", 0, 0⟩ 3600000
        "Thu Jan 15 2026" 12 0 none (some 0.12) (some 0.06)
        [⟨"heater", 2000⟩]).1.costToday = 0.24 ∧
    totalPowerOf [⟨"heater", 2000⟩, ⟨"sensor", -5⟩] = 2000 :=
  claim_C5_cost_increment ⟨none, 0, "Thu Jan 15 2026", 1, 0⟩ 3600000
    "Thu Jan 15 2026" 12 0 none (some 0.12) (some 0.06)
    [⟨"heater", 2000⟩] rfl

/-- C8: the cost-per-hour alert fires exactly when costPerHour is
positive, carrying the observed costPerHour, the snapshot's total power,
and the observed costPerHour again as the threshold field; at zero it
does not fire. -/
theorem claim_C8_cost_alert (c ct r : ℚ) (dp : List PowerDevice) :
    ((checkAlerts c ct r dp).costAlert ≠ none ↔ 0 < c) ∧
    (0 < c → (checkAlerts c ct r dp).costAlert =
      some ⟨c, (dp.map PowerDevice.power).sum, c⟩) ∧
    (c = 0 → (checkAlerts c ct r dp).costAlert = none) := by
  refine ⟨?_, fun hc => ?_, fun hc => ?_⟩
  · by_cases hc : 0 < c <;> simp [checkAlerts, hc]
  · simp [checkAlerts, hc, foldPower_eq_sum]
  · simp [checkAlerts, hc]

/-- Witness for C8: positive and zero costPerHour at a concrete
snapshot. -/
theorem claim_C8_witness :
    (((checkAlerts 0.24 1 0.12 [⟨"heater", 2000⟩]).costAlert ≠ none ↔
        (0 : ℚ) < 0.24) ∧
      ((0 : ℚ) < 0.24 → (checkAlerts 0.24 1 0.12 [⟨"heater", 2000⟩]).costAlert =
        some ⟨0.24, (([⟨"heater", 2000⟩] : List PowerDevice).map
          PowerDevice.power).sum, 0.24⟩) ∧
      ((0.24 : ℚ) = 0 → (checkAlerts 0.24 1 0.12 [⟨"heater", 2000⟩]).costAlert =
        none)) ∧
    ((0 : ℚ) < 0.24) :=
  ⟨claim_C8_cost_alert 0.24 1 0.12 [⟨"heater", 2000⟩], by norm_num⟩

/-- C9: the settings write endpoint applies exactly the fields present in
the body, leaves absent fields unchanged, and always reports success. -/
theorem claim_C9_partial_update (store : SettingsStore) (body : SettingsBody) :
    (putSettings store body).2 = true ∧
    (body.currency = none → (putSettings store body).1.currency = store.currency) ∧
    (∀ c, body.currency = some c → (putSettings store body).1.currency = some c) ∧
    (body.dayRate = none → (putSettings store body).1.dayRate = store.dayRate) ∧
    (∀ r, body.dayRate = some r → (putSettings store body).1.dayRate = some r) ∧
    (body.nightRate = none → (putSettings store body).1.nightRate = store.nightRate) ∧
    (∀ r, body.nightRate = some r → (putSettings store body).1.nightRate = some r) ∧
    (body.seasons = none → (putSettings store body).1.seasons = store.seasons) ∧
    (∀ l, body.seasons = some l → (putSettings store body).1.seasons = some l) := by
  obtain ⟨bc, bd, bn, bs⟩ := body
  cases bc <;> cases bd <;> cases bn <;> cases bs <;> simp [putSettings]

/-- Witness for C9: a body carrying only dayRate updates dayRate and
nothing else. -/
theorem claim_C9_witness :
    (putSettings ⟨some "EUR", some 0.12, some 0.06, some []⟩
        ⟨none, some 0.2, none, none⟩).2 = true ∧
    ((⟨none, some 0.2, none, none⟩ : SettingsBody).currency = none →
      (putSettings ⟨some "EUR", some 0.12, some 0.06, some []⟩
        ⟨none, some 0.2, none, none⟩).1.currency = some "EUR") ∧
    (∀ c, (⟨none, some 0.2, none, none⟩ : SettingsBody).currency = some c →
      (putSettings ⟨some "EUR", some 0.12, some 0.06, some []⟩
        ⟨none, some 0.2, none, none⟩).1.currency = some c) ∧
    ((⟨none, some 0.2, none, none⟩ : SettingsBody).dayRate = none →
      (putSettings ⟨some "EUR", some 0.12, some 0.06, some []⟩
        ⟨none, some 0.2, none, none⟩).1.dayRate = some 0.12) ∧
    (∀ r, (⟨none, some 0.2, none, none⟩ : SettingsBody).dayRate = some r →
      (putSettings ⟨some "EUR", some 0.12, some 0.06, some []⟩
        ⟨none, some 0.2, none, none⟩).1.dayRate = some r) ∧
    ((⟨none, some 0.2, none, none⟩ : SettingsBody).nightRate = none →
      (putSettings ⟨some "EUR", some 0.12, some 0.06, some []⟩
        ⟨none, some 0.2, none, none⟩).1.nightRate = some 0.06) ∧
    (∀ r, (⟨none, some 0.2, none, none⟩ : SettingsBody).nightRate = some r →
      (putSettings ⟨some "EUR", some 0.12, some 0.06, some []⟩
        ⟨none, some 0.2, none, none⟩).1.nightRate = some r) ∧
    ((⟨none, some 0.2, none, none⟩ : SettingsBody).seasons = none →
      (putSettings ⟨some "EUR", some 0.12, some 0.06, some []⟩
        ⟨none, some 0.2, none, none⟩).1.seasons = some []) ∧
    (∀ l, (⟨none, some 0.2, none, none⟩ : SettingsBody).seasons = some l →
      (putSettings ⟨some "EUR", some 0.12, some 0.06, some []⟩
        ⟨none, some 0.2, none, none⟩).1.seasons = some l) :=
  claim_C9_partial_update ⟨some "EUR", some 0.12, some 0.06, some []⟩
    ⟨none, some 0.2, none, none⟩

/-- Any falsy-or resolution of a rate against a nonzero default is
nonzero. -/
theorem jsOrNum_ne_zero (v : Option ℚ) (d : ℚ) (hd : d ≠ 0) :
    jsOrNum v d ≠ 0 := by
  cases v with
  | none => simpa [jsOrNum] using hd
  | some x =>
    by_cases hx : x = 0
    · simp only [jsOrNum, hx, if_true]
      exact hd
    · simp only [jsOrNum, hx, if_false]
      exact hx

/-- C10: a stored rate equal to 0 is falsy, so both the rate resolver and
the read endpoint replace it by the fixed fallback (0.12 day, 0.06
night); consequently the resolved rate is never 0. -/
theorem claim_C10_zero_rate_fallback (dr nr : Option ℚ)
    (store : SettingsStore) :
    getCurrentRate "day" (some 0) nr = 0.12 ∧
    getCurrentRate "night" dr (some 0) = 0.06 ∧
    (store.dayRate = some 0 → (getSettings store).dayRate = 0.12) ∧
    (store.nightRate = some 0 → (getSettings store).nightRate = 0.06) ∧
    (∀ t, getCurrentRate t dr nr ≠ 0) := by
  refine ⟨by simp [getCurrentRate, jsOrNum], by simp [getCurrentRate, jsOrNum],
    fun hd => by simp [getSettings, jsOrNum, hd],
    fun hn => by simp [getSettings, jsOrNum, hn], fun t => ?_⟩
  unfold getCurrentRate
  split_ifs <;> exact jsOrNum_ne_zero _ _ (by norm_num)

/-- Witness for C10: a store with both rates stored as 0. -/
theorem claim_C10_witness :
    getCurrentRate "day" (some 0) (some 0) = 0.12 ∧
    getCurrentRate "night" (some 0) (some 0) = 0.06 ∧
    ((⟨some "EUR", some 0, some 0, none⟩ : SettingsStore).dayRate = some 0 →
      (getSettings ⟨some "EUR", some 0, some 0, none⟩).dayRate = 0.12) ∧
    ((⟨some "EUR", some 0, some 0, none⟩ : SettingsStore).nightRate = some 0 →
      (getSettings ⟨some "EUR", some 0, some 0, none⟩).nightRate = 0.06) ∧
    (∀ t, getCurrentRate t (some 0) (some 0) ≠ 0) :=
  claim_C10_zero_rate_fallback (some 0) (some 0) ⟨some "EUR", some 0, some 0, none⟩

/-- C3: with zero-padded dayStart/dayEnd (or the "06:00"/"22:00"
defaults when missing), the tariff is day exactly on the half-open minute
window, night otherwise; at dayEnd the tariff is night, and when the
window is nonempty it is day at dayStart and one minute before dayEnd. -/
theorem claim_C3_day_window (s : Season) (h₁ m₁ h₂ m₂ : Nat)
    (b₁ : h₁ < 24) (b₂ : m₁ < 60) (b₃ : h₂ < 24) (b₄ : m₂ < 60)
    (hds : s.dayStart.getD "06:00" = timeStr h₁ m₁)
    (hde : s.dayEnd.getD "22:00" = timeStr h₂ m₂) :
    (∀ h m, h < 24 → m < 60 →
      ((getCurrentTariff (some s) h m = "day" ↔
         (60 * h₁ + m₁ ≤ 60 * h + m ∧ 60 * h + m < 60 * h₂ + m₂)) ∧
       (getCurrentTariff (some s) h m = "night" ↔
         ¬ (60 * h₁ + m₁ ≤ 60 * h + m ∧ 60 * h + m < 60 * h₂ + m₂)))) ∧
    getCurrentTariff (some s) h₂ m₂ = "night" ∧
    (60 * h₁ + m₁ < 60 * h₂ + m₂ →
      getCurrentTariff (some s) h₁ m₁ = "day" ∧
      getCurrentTariff (some s)
        ((60 * h₂ + m₂ - 1) / 60) ((60 * h₂ + m₂ - 1) % 60) = "day") := by
  have main : ∀ h m, h < 24 → m < 60 →
      getCurrentTariff (some s) h m =
        if 60 * h₁ + m₁ ≤ 60 * h + m ∧ 60 * h + m < 60 * h₂ + m₂
        then "day" else "night" :=
    fun h m bh bm =>
      getCurrentTariff_eq_ite s h₁ m₁ h₂ m₂ h m b₁ b₂ b₃ b₄ bh bm hds hde
  have hnd : ("night" : String) ≠ "day" := by decide
  have hdn : ("day" : String) ≠ "night" := by decide
  refine ⟨fun h m bh bm => ?_, ?_, fun hlt => ⟨?_, ?_⟩⟩
  · rw [main h m bh bm]
    split_ifs with hc <;> simp [hc, hnd, hdn]
  · rw [main h₂ m₂ b₃ b₄, if_neg (by omega)]
  · rw [main h₁ m₁ b₁ b₂, if_pos (by omega)]
  · rw [main ((60 * h₂ + m₂ - 1) / 60) ((60 * h₂ + m₂ - 1) % 60)
        (by omega) (by omega),
      if_pos (by omega)]

/-- Witness for C3: the defaults season, checked at 08:00 (day), 05:59
(night), 06:00 (exact dayStart), 22:00 (exact dayEnd) and 21:59 (one
minute before dayEnd). -/
theorem claim_C3_witness :
    getCurrentTariff (some bareSeason) 8 0 = "day" ∧
    getCurrentTariff (some bareSeason) 5 59 = "night" ∧
    getCurrentTariff (some bareSeason) 6 0 = "day" ∧
    getCurrentTariff (some bareSeason) 22 0 = "night" ∧
    getCurrentTariff (some bareSeason) 21 59 = "day" := by
  have h := claim_C3_day_window bareSeason 6 0 22 0 (by omega) (by omega)
    (by omega) (by omega) (by decide) (by decide)
  refine ⟨?_, ?_, (h.2.2 (by omega)).1, h.2.1, ?_⟩
  · exact (h.1 8 0 (by omega) (by omega)).1.mpr (by omega)
  · exact (h.1 5 59 (by omega) (by omega)).2.mpr (by omega)
  · exact (h.2.2 (by omega)).2

/-- C4 as stated is false: the unvalidated season with dayStart "22:00"
and dayEnd "06:00" makes getMinutesUntilChange return 2260 at 08:20,
outside [0, 1440). -/
theorem claim_C4_counterexample :
    getMinutesUntilChange (some badSeason)
        (getCurrentTariff (some badSeason) 8 20) 8 20 = 2260 ∧
    ¬ getMinutesUntilChange (some badSeason)
        (getCurrentTariff (some badSeason) 8 20) 8 20 < 1440 := by decide

/-- C4 amended: for a season whose dayStart is strictly before dayEnd,
the minutes-until-change value at the resolved tariff always lies in
[0, 1440), is 1 one minute before dayEnd during day, and is 1 one minute
before dayStart during pre-dayStart night. -/
theorem claim_C4_minutes_in_range (s : Season) (h₁ m₁ h₂ m₂ : Nat)
    (b₁ : h₁ < 24) (b₂ : m₁ < 60) (b₃ : h₂ < 24) (b₄ : m₂ < 60)
    (hds : s.dayStart.getD "06:00" = timeStr h₁ m₁)
    (hde : s.dayEnd.getD "22:00" = timeStr h₂ m₂)
    (hlt : 60 * h₁ + m₁ < 60 * h₂ + m₂) :
    (∀ h m, h < 24 → m < 60 →
      0 ≤ getMinutesUntilChange (some s) (getCurrentTariff (some s) h m) h m ∧
      getMinutesUntilChange (some s) (getCurrentTariff (some s) h m) h m < 1440) ∧
    getMinutesUntilChange (some s)
      (getCurrentTariff (some s)
        ((60 * h₂ + m₂ - 1) / 60) ((60 * h₂ + m₂ - 1) % 60))
      ((60 * h₂ + m₂ - 1) / 60) ((60 * h₂ + m₂ - 1) % 60) = 1 ∧
    (1 ≤ 60 * h₁ + m₁ →
      getMinutesUntilChange (some s)
        (getCurrentTariff (some s)
          ((60 * h₁ + m₁ - 1) / 60) ((60 * h₁ + m₁ - 1) % 60))
        ((60 * h₁ + m₁ - 1) / 60) ((60 * h₁ + m₁ - 1) % 60) = 1) := by
  have eval : ∀ h m, h < 24 → m < 60 →
      getMinutesUntilChange (some s) (getCurrentTariff (some s) h m) h m =
        if 60 * h₁ + m₁ ≤ 60 * h + m ∧ 60 * h + m < 60 * h₂ + m₂ then
          ((h₂ : Int) * 60 + m₂) - ((h : Int) * 60 + m)
        else if ((h : Int) * 60 + m) ≥ ((h₂ : Int) * 60 + m₂) then
          24 * 60 - ((h : Int) * 60 + m) + ((h₁ : Int) * 60 + m₁)
        else ((h₁ : Int) * 60 + m₁) - ((h : Int) * 60 + m) := by
    intro h m bh bm
    rw [getCurrentTariff_eq_ite s h₁ m₁ h₂ m₂ h m b₁ b₂ b₃ b₄ bh bm hds hde]
    by_cases hP : 60 * h₁ + m₁ ≤ 60 * h + m ∧ 60 * h + m < 60 * h₂ + m₂
    · rw [if_pos hP, if_pos hP,
        minutesUntilChange_day s h₁ m₁ h₂ m₂ h m (by omega) (by omega)
          (by omega) (by omega) hds hde]
    · rw [if_neg hP, if_neg hP]
      have hnight : getMinutesUntilChange (some s) "night" h m = _ :=
        minutesUntilChange_night s h₁ m₁ h₂ m₂ h m (by omega) (by omega)
          (by omega) (by omega) hds hde
      rw [hnight]
  refine ⟨fun h m bh bm => ?_, ?_, fun hs => ?_⟩
  · rw [eval h m bh bm]
    split_ifs with hP hQ <;> constructor <;> omega
  · rw [eval ((60 * h₂ + m₂ - 1) / 60) ((60 * h₂ + m₂ - 1) % 60)
        (by omega) (by omega),
      if_pos (by omega)]
    omega
  · rw [eval ((60 * h₁ + m₁ - 1) / 60) ((60 * h₁ + m₁ - 1) % 60)
        (by omega) (by omega),
      if_neg (by omega), if_neg (by omega)]
    omega

/-- Witness for C4 amended: the defaults season, one minute before each
boundary and at 08:00. -/
theorem claim_C4_witness :
    (0 ≤ getMinutesUntilChange (some bareSeason)
        (getCurrentTariff (some bareSeason) 8 0) 8 0 ∧
      getMinutesUntilChange (some bareSeason)
        (getCurrentTariff (some bareSeason) 8 0) 8 0 < 1440) ∧
    getMinutesUntilChange (some bareSeason)
      (getCurrentTariff (some bareSeason) 21 59) 21 59 = 1 ∧
    getMinutesUntilChange (some bareSeason)
      (getCurrentTariff (some bareSeason) 5 59) 5 59 = 1 := by
  have h := claim_C4_minutes_in_range bareSeason 6 0 22 0 (by omega) (by omega)
    (by omega) (by omega) (by decide) (by decide) (by omega)
  exact ⟨h.1 8 0 (by omega) (by omega), h.2.1, h.2.2 (by omega)⟩

/-- C6: the history buffer never exceeds 1440 entries; an append sequence
of 1441 distinct samples leaves exactly samples 2..1441 in their original
order, and the first-appended sample is gone. -/
theorem claim_C6_history_bound (samples : List HistorySample)
    (hlen : samples.length = 1441) (hnd : samples.Nodup) :
    (∀ l : List HistorySample, (recordAll l).length ≤ 1440) ∧
    recordAll samples = samples.drop 1 ∧
    (∀ x, samples.head? = some x → x ∉ recordAll samples) := by
  have gen : ∀ l : List HistorySample,
      recordAll l = l.drop (l.length - 1440) := by
    intro l
    unfold recordAll
    rw [foldl_recordHistory l [] (by simp)]
    simp
  have hdropone : recordAll samples = samples.drop 1 := by
    rw [gen samples, hlen]
  refine ⟨fun l => ?_, hdropone, fun x hx => ?_⟩
  · rw [gen l, List.length_drop]
    omega
  · cases samples with
    | nil => simp at hlen
    | cons a t =>
      have hxa : a = x := by simpa using hx
      rw [hdropone, List.drop_one, List.tail_cons, ← hxa]
      exact (List.nodup_cons.mp hnd).1

/-- Witness for C6: 1441 concrete distinct samples. -/
theorem claim_C6_witness :
    (∀ l : List HistorySample, (recordAll l).length ≤ 1440) ∧
    recordAll histSamples1441 = histSamples1441.drop 1 ∧
    (∀ x, histSamples1441.head? = some x → x ∉ recordAll histSamples1441) :=
  claim_C6_history_bound histSamples1441
    (by simp [histSamples1441])
    (List.Nodup.map
      (fun a b hab => by
        have ht : ((a : ℚ)) = ((b : ℚ)) := congrArg HistorySample.t hab
        exact_mod_cast ht)
      (List.nodup_range 1441))

/-- C7: the tariff-change tracker is edge-triggered: it emits exactly one
event and increments the per-day counter exactly when the newly resolved
tariff differs from the previously observed non-null tariff; it stays
silent on equality or a null previous tariff; the counter restarts from 0
when the tracker observes a new calendar day. -/
theorem claim_C7_edge_trigger (st : DeviceState) (cur today : String)
    (dayRate nightRate : Option ℚ) :
    (trackTariffChanges st cur today dayRate nightRate).1.lastTariff =
      some cur ∧
    (st.lastResetDate = today →
      (∀ p, st.lastTariff = some p → p ≠ cur →
        (trackTariffChanges st cur today dayRate nightRate).2 =
          some ⟨p, cur, getCurrentRate cur dayRate nightRate⟩ ∧
        (trackTariffChanges st cur today dayRate nightRate).1.tariffChangesToday =
          st.tariffChangesToday + 1) ∧
      (st.lastTariff = none ∨ st.lastTariff = some cur →
        (trackTariffChanges st cur today dayRate nightRate).2 = none ∧
        (trackTariffChanges st cur today dayRate nightRate).1.tariffChangesToday =
          st.tariffChangesToday)) ∧
    (st.lastResetDate ≠ today →
      (∀ p, st.lastTariff = some p → p ≠ cur →
        (trackTariffChanges st cur today dayRate nightRate).2 =
          some ⟨p, cur, getCurrentRate cur dayRate nightRate⟩ ∧
        (trackTariffChanges st cur today dayRate nightRate).1.tariffChangesToday = 1) ∧
      (st.lastTariff = none ∨ st.lastTariff = some cur →
        (trackTariffChanges st cur today dayRate nightRate).2 = none ∧
        (trackTariffChanges st cur today dayRate nightRate).1.tariffChangesToday = 0)) := by
  refine ⟨?_, fun hr => ⟨fun p hp hpc => ?_, fun h2 => ?_⟩,
    fun hr => ⟨fun p hp hpc => ?_, fun h2 => ?_⟩⟩
  · by_cases hr : st.lastResetDate = today <;>
      rcases hl : st.lastTariff with _ | p <;>
        simp [trackTariffChanges, hr, hl] <;>
          split_ifs <;> rfl
  · simp [trackTariffChanges, hr, hp, hpc]
  · rcases h2 with h2 | h2 <;> simp [trackTariffChanges, hr, h2]
  · simp [trackTariffChanges, hr, hp, hpc]
  · rcases h2 with h2 | h2 <;> simp [trackTariffChanges, hr, h2]

/-- Witness for C7: an observed night-to-day edge on an unchanged day. -/
theorem claim_C7_witness :
    (trackTariffChanges ⟨some "night", 3, "Thu Jan 15 2026", 0, 0⟩ "day"
        "Thu Jan 15 2026" (some 0.12) (some 0.06)).1.lastTariff =
      some "day" ∧
    (trackTariffChanges ⟨some "night", 3, "Thu Jan 15 2026", 0, 0⟩ "day"
        "Thu Jan 15 2026" (some 0.12) (some 0.06)).2 =
      some ⟨"night", "day", getCurrentRate "day" (some 0.12) (some 0.06)⟩ ∧
    (trackTariffChanges ⟨some "night", 3, "Thu Jan 15 2026", 0, 0⟩ "day"
        "Thu Jan 15 2026" (some 0.12) (some 0.06)).1.tariffChangesToday =
      3 + 1 := by
  have h := claim_C7_edge_trigger ⟨some "night", 3, "Thu Jan 15 2026", 0, 0⟩
    "day" "Thu Jan 15 2026" (some 0.12) (some 0.06)
  have h2 := (h.2.1 rfl).1 "night" rfl (by decide)
  exact ⟨h.1, h2.1, h2.2⟩

end EnergyTariff
